import Mathlib

/-!
Shallow embedding of the learning-mode routing and prompt-selection engine of
the lilibet-backend repository, together with theorems checking the
specification's claims against it.

Embedded sources:
* `src/learningEngine.js` — two concatenated variants; the first variant's
  orchestrator is `processLearningInteractionV1` (its lines 247-292), the
  second variant's is `processLearningInteraction` (its lines 552-621).
  `detectLearningMode`, `selectOptimalModel` and `getFallbackResponse` are
  textually identical in both variants.
* `src/server.js` and `src/unnamed/part_001` — the `/api/tutor` endpoint:
  history truncation (`conversationHistory.slice(-10)`), the catch handler's
  error payload, and (in `part_001`, the strict variant) the intent detector
  `detectIntent` and the `STRICT_SOCRATIC_PROMPTS` table.

The provider network calls are side effects; they are modelled by oracle
arguments of type `Except String String` (`.ok text` = the call returned
`text`, `.error msg` = the call threw an error whose message is `msg`).
JavaScript strings are modelled by `String`; `message.toLowerCase()` by
character-wise `Char.toLower` and `msg.includes(pat)` by substring
containment on the character lists (both agree on the ASCII text the
engine's keyword tables use).
-/

namespace Lilibet

/-- The closed set of learning modes: the five string constants
`detectLearningMode` (src/learningEngine.js lines 31-66) can return. -/
inductive LearningMode where
  | discovery
  | practice
  | explanation
  | challenge
  | review
  deriving DecidableEq, Fintype, Repr

/-- The model names the engine stores in its metadata: `selectOptimalModel`
returns `'openai' | 'claude' | 'none'`, and the first variant's orchestrator
additionally uses `'fallback'` for its canned-response path. -/
inductive ModelChoice where
  | openai
  | claude
  | none
  | fallback
  deriving DecidableEq, Fintype, Repr

/-- JavaScript `s.toLowerCase()` on the engine's ASCII keyword alphabet:
lower-case each character. (Defined over the character list so that it
reduces definitionally; `String.toLower` itself recurses on byte positions
by well-founded recursion.) -/
def jsToLower (s : String) : String :=
  String.mk (s.toList.map Char.toLower)

/-- `pat` is a prefix of some suffix of the character list: contiguous
substring occurrence. -/
def listIsInfixOf (pat : List Char) : List Char → Bool
  | [] => pat.isEmpty
  | c :: rest => pat.isPrefixOf (c :: rest) || listIsInfixOf pat rest

/-- JavaScript `s.includes(pat)`: `pat` occurs as a contiguous substring. -/
def containsStr (s pat : String) : Bool :=
  listIsInfixOf pat.toList s.toList

/-- First keyword group of `detectLearningMode` (labelled "Discovery Mode -
Questions and curiosity" in the source, but returning `'explanation'`). -/
def explanationGroup (msg : String) : Bool :=
  containsStr msg "what is" || containsStr msg "how does" || containsStr msg "why" ||
  containsStr msg "tell me about" || containsStr msg "explain"

/-- Second keyword group: "Practice Mode - Exercises and problems". -/
def practiceGroup (msg : String) : Bool :=
  containsStr msg "practice" || containsStr msg "solve" || containsStr msg "calculate" ||
  containsStr msg "exercise" || containsStr msg "problem" || containsStr msg "work through"

/-- Third keyword group: "Discovery Mode - Open exploration". -/
def discoveryGroup (msg : String) : Bool :=
  containsStr msg "wonder" || containsStr msg "curious" || containsStr msg "explore" ||
  containsStr msg "discover" || containsStr msg "learn about"

/-- Fourth keyword group: "Challenge Mode - Testing knowledge". -/
def challengeGroup (msg : String) : Bool :=
  containsStr msg "challenge" || containsStr msg "test" || containsStr msg "quiz" ||
  containsStr msg "hard" || containsStr msg "difficult"

/-- Fifth keyword group: "Review Mode - Reinforcement". -/
def reviewGroup (msg : String) : Bool :=
  containsStr msg "review" || containsStr msg "remember" || containsStr msg "recap" ||
  containsStr msg "summarize" || containsStr msg "go over"

/-- `detectLearningMode` (src/learningEngine.js lines 31-66, identical in both
variants): lower-case the message, test the five keyword groups in source
order, first match wins, default `'discovery'`. -/
def detectLearningMode (message : String) : LearningMode :=
  let msg := jsToLower message
  if explanationGroup msg then .explanation
  else if practiceGroup msg then .practice
  else if discoveryGroup msg then .discovery
  else if challengeGroup msg then .challenge
  else if reviewGroup msg then .review
  else .discovery

/-- The disjunction of the five keyword groups of `detectLearningMode`, on the
lower-cased message: "some pattern group matches". -/
def anyGroupMatches (message : String) : Bool :=
  let msg := jsToLower message
  explanationGroup msg || practiceGroup msg || discoveryGroup msg ||
  challengeGroup msg || reviewGroup msg

/-- `selectOptimalModel` (src/learningEngine.js lines 69-87, identical in both
variants). The JavaScript `default:` arm returns `'openai'`, but with the
closed `LearningMode` enum the five-case switch is already exhaustive, so that
arm is unreachable here. -/
def selectOptimalModel (mode : LearningMode) (hasOpenAI hasClaude : Bool) : ModelChoice :=
  if !hasOpenAI && hasClaude then .claude
  else if hasOpenAI && !hasClaude then .openai
  else if !hasOpenAI && !hasClaude then ModelChoice.none
  else
    match mode with
    | .explanation | .discovery => .claude
    | .practice | .challenge | .review => .openai

/-- Whether a returned model choice is consistent with the availability flags:
`'openai'` may only be returned when OpenAI is available, `'claude'` only when
Claude is. -/
def modelAvailable (m : ModelChoice) (hasOpenAI hasClaude : Bool) : Bool :=
  match m with
  | .openai => hasOpenAI
  | .claude => hasClaude
  | _ => true

/-- `getFallbackResponse` (src/learningEngine.js lines 234-244, identical in
both variants). The JavaScript `|| default` arm fires only for a key outside
the mode table; with the closed `LearningMode` enum it is unreachable. -/
def getFallbackResponse (mode : LearningMode) : String :=
  match mode with
  | .discovery => "That's a great question! Let me help you explore this. What do you already know about this topic? What makes you curious about it?"
  | .practice => "Let's work through this step by step. First, can you tell me what part you'd like to practice? We'll start simple and build up your skills!"
  | .explanation => "I'd love to explain this to you! While I'm having some technical difficulties, let's think about it together. What specific part would you like to understand better?"
  | .challenge => "You're ready for a challenge! Here's something to think about: How would you approach solving this type of problem? What strategies have worked for you before?"
  | .review => "Let's review what we've learned. Can you tell me what you remember about this topic? What parts were most interesting or confusing?"

/-- Metadata of the second variant's orchestrator result
(src/learningEngine.js lines 596-618): `{mode, model, subject, ageGroup,
timestamp}` on the normal path, plus an `error` key set only in the outer
catch. `error = Option.none` models the key being absent. -/
structure InteractionMetadata where
  mode : LearningMode
  model : ModelChoice
  subject : String
  ageGroup : String
  error : Option String
  timestamp : String
  deriving DecidableEq, Repr

/-- `{response, metadata}` as returned by the second variant's
`processLearningInteraction`. -/
structure InteractionResult where
  response : String
  metadata : InteractionMetadata
  deriving DecidableEq, Repr

/-- Second variant's `processLearningInteraction` (src/learningEngine.js
lines 552-621). The provider calls are the oracles `openaiCall`/`claudeCall`;
the clock is the `now` argument. The JavaScript body wraps everything in an
outer try/catch whose catch returns a discovery fallback with
`metadata.error = error.message`; every throwing operation of the body (the
two provider calls) is already caught by the inner try/catch structure
modelled below, so that outer catch is unreachable for string inputs and the
normal-path record (with no `error` key) is always returned. -/
def processLearningInteraction (message subject ageGroup : String)
    (hasOpenAI hasClaude : Bool)
    (openaiCall claudeCall : Except String String) (now : String) : InteractionResult :=
  let mode := detectLearningMode message
  let selectedModel := selectOptimalModel mode hasOpenAI hasClaude
  let response :=
    match selectedModel with
    | ModelChoice.openai =>
      -- try the primary (OpenAI); on failure fall back to Claude if available
      (match openaiCall with
       | .ok r => r
       | .error _ =>
         if hasClaude then
           match claudeCall with
           | .ok r => r
           | .error _ => getFallbackResponse mode
         else getFallbackResponse mode)
    | ModelChoice.claude =>
      -- try the primary (Claude); on failure fall back to OpenAI if available
      (match claudeCall with
       | .ok r => r
       | .error _ =>
         if hasOpenAI then
           match openaiCall with
           | .ok r => r
           | .error _ => getFallbackResponse mode
         else getFallbackResponse mode)
    | _ => getFallbackResponse mode
  { response := response
    metadata := { mode := mode, model := selectedModel, subject := subject,
                  ageGroup := ageGroup, error := Option.none, timestamp := now } }

/-- Metadata of the first variant's orchestrator result
(src/learningEngine.js lines 283-291): `{mode, model, subject, skillLevel}`,
never an `error` or `timestamp` key. -/
structure InteractionMetadataV1 where
  mode : LearningMode
  model : ModelChoice
  subject : String
  skillLevel : String
  deriving DecidableEq, Repr

/-- `{response, metadata}` as returned by the first variant's orchestrator. -/
structure InteractionResultV1 where
  response : String
  metadata : InteractionMetadataV1
  deriving DecidableEq, Repr

/-- First variant's `processLearningInteraction` (src/learningEngine.js lines
247-292), named V1 here to coexist with the second variant. The try block
computes an optional response and the running `actualModel`; a thrown provider
error is the `.error` case, answered by the catch with the canned fallback.
JavaScript's `if (!response)` is true both for an unset response and for the
empty string, hence the explicit `r = ""` test. -/
def processLearningInteractionV1 (message subject skillLevel : String)
    (hasOpenAI hasClaude : Bool)
    (openaiCall claudeCall : Except String String) : InteractionResultV1 :=
  let mode := detectLearningMode message
  let model := selectOptimalModel mode hasOpenAI hasClaude
  let attempt : Except String (Option String × ModelChoice) :=
    if model = ModelChoice.openai ∧ hasOpenAI = true then
      openaiCall.map (fun r => (some r, model))
    else if model = ModelChoice.claude ∧ hasClaude = true then
      claudeCall.map (fun r => (some r, model))
    else if model ≠ ModelChoice.none then
      -- "Fallback to available model"
      if hasOpenAI then openaiCall.map (fun r => (some r, ModelChoice.openai))
      else if hasClaude then claudeCall.map (fun r => (some r, ModelChoice.claude))
      else Except.ok (Option.none, model)
    else Except.ok (Option.none, model)
  match attempt with
  | .error _ =>
    { response := getFallbackResponse mode
      metadata := { mode := mode, model := ModelChoice.fallback,
                    subject := subject, skillLevel := skillLevel } }
  | .ok (res, actualModel) =>
    match res with
    | some r =>
      if r = "" then
        { response := getFallbackResponse mode
          metadata := { mode := mode, model := ModelChoice.fallback,
                        subject := subject, skillLevel := skillLevel } }
      else
        { response := r
          metadata := { mode := mode, model := actualModel,
                        subject := subject, skillLevel := skillLevel } }
    | Option.none =>
      { response := getFallbackResponse mode
        metadata := { mode := mode, model := ModelChoice.fallback,
                      subject := subject, skillLevel := skillLevel } }

/-- A chat message as sent to the providers: `{role, content}`. -/
structure ChatMessage where
  role : String
  content : String
  deriving DecidableEq, Repr

/-- JavaScript `arr.slice(-n)`: the last `min n (length arr)` elements. -/
def sliceLast {α : Type} (n : Nat) (l : List α) : List α :=
  l.drop (l.length - n)

/-- The message list the `/api/tutor` endpoint sends upstream (src/server.js
lines 882-886 and src/unnamed/part_001 lines 973-977): the system prompt, the
last ten history messages (`conversationHistory.slice(-10)`), the current
user message. -/
def buildTutorMessages (systemPrompt : String) (conversationHistory : List ChatMessage)
    (message : String) : List ChatMessage :=
  { role := "system", content := systemPrompt } ::
    (sliceLast 10 conversationHistory ++ [{ role := "user", content := message }])

/-- The message list `callOpenAILearningMode` sends (src/learningEngine.js
lines 156-159): system prompt and current message only, no history. -/
def openAIAdapterMessages (systemPrompt message : String) : List ChatMessage :=
  [{ role := "system", content := systemPrompt },
   { role := "user", content := message }]

/-- The JSON body of the 500 response built by the `/api/tutor` catch block
(src/server.js lines 910-916 and src/unnamed/part_001 lines 1013-1019):
`{error: friendly text, details: error.message}`. -/
structure TutorErrorPayload where
  error : String
  details : String
  deriving DecidableEq, Repr

/-- The catch handler of `/api/tutor`, as a function of the caught error's
message. -/
def tutorCatchPayload (errMessage : String) : TutorErrorPayload :=
  { error := "Sorry, I'm having trouble thinking right now. Could you try again?"
    details := errMessage }

/-!
The strict variant (src/unnamed/part_001) classifies with JavaScript regular
expressions. The small matcher below gives executable semantics to exactly
the constructs those patterns use: literals, alternation `(a|b)`, option `?`,
the classes `\d`, `\s`, `.`, with `*`/`+`, the word boundary `\b` and the
anchors `^`/`$`. A matcher takes the character before the current position
(for `\b`) and the remaining input, and returns the states after every
possible match of the construct.
-/

/-- JavaScript `\w`: ASCII letters, digits and underscore. -/
def isWordChar (c : Char) : Bool := c.isAlphanum || c = '_'

/-- Whether the character on one side of a position is a word character; the
edge of the string counts as a non-word side. -/
def isWordOpt : Option Char → Bool
  | some c => isWordChar c
  | Option.none => false

/-- JavaScript `\d`. -/
def isDigitChar (c : Char) : Bool := c.isDigit

/-- JavaScript `\s` (its ASCII part: space, tab, newline, carriage return,
vertical tab, form feed; the Unicode spaces do not occur in these inputs). -/
def isSpaceChar (c : Char) : Bool :=
  c = ' ' || c = '\t' || c = '\n' || c = '\r' || c = Char.ofNat 11 || c = Char.ofNat 12

/-- JavaScript `.`: any character but a line terminator. -/
def isDotChar (c : Char) : Bool := !(c = '\n' || c = '\r')

/-- A match position: the character just before it (`Option.none` at the
start of the string) and the rest of the input. -/
abbrev MatchState := Option Char × List Char

/-- A regex fragment as a nondeterministic position transformer. -/
abbrev Matcher := MatchState → List MatchState

/-- A literal: consume exactly these characters. -/
def litM (pat : List Char) : Matcher := fun st =>
  if pat.isPrefixOf st.2 then
    [(match pat.getLast? with
      | some c => some c
      | Option.none => st.1, st.2.drop pat.length)]
  else []

/-- A literal, from a string. -/
def lit (s : String) : Matcher := litM s.toList

/-- Sequencing of two fragments. -/
def seqM (a b : Matcher) : Matcher := fun st => (a st).flatMap b

/-- Sequencing of a list of fragments. -/
def seqAll (ms : List Matcher) : Matcher := ms.foldr seqM (fun st => [st])

/-- Alternation `(a|b|...)`. -/
def altM (ms : List Matcher) : Matcher := fun st => ms.flatMap (fun m => m st)

/-- Option `a?`. -/
def optM (a : Matcher) : Matcher := fun st => st :: a st

/-- The word boundary `\b`: the two sides of the position disagree on being a
word character. -/
def boundaryM : Matcher := fun st =>
  if isWordOpt st.1 != isWordOpt st.2.head? then [st] else []

/-- The anchor `$` (no multiline flag: end of input). -/
def endM : Matcher := fun st => if st.2.isEmpty then [st] else []

/-- All ways to consume a (possibly empty) run of class characters. -/
def manyClassM (p : Char → Bool) : Option Char → List Char → List MatchState
  | prev, [] => [(prev, [])]
  | prev, c :: rest =>
    (prev, c :: rest) :: (if p c then manyClassM p (some c) rest else [])

/-- A class with `*`. -/
def manyM (p : Char → Bool) : Matcher := fun st => manyClassM p st.1 st.2

/-- A class with `+`: at least one character. -/
def someM (p : Char → Bool) : Matcher := fun st =>
  match st.2 with
  | [] => []
  | c :: rest => if p c then manyClassM p (some c) rest else []

/-- Whether the fragment matches starting exactly at this position. -/
def matchesHere (m : Matcher) (st : MatchState) : Bool := !(m st).isEmpty

/-- Whether the fragment matches starting at this or any later position. -/
def searchAux (m : Matcher) : Option Char → List Char → Bool
  | prev, [] => matchesHere m (prev, [])
  | prev, c :: rest => matchesHere m (prev, c :: rest) || searchAux m (some c) rest

/-- JavaScript `re.test(s)` for an unanchored pattern. -/
def regexTest (m : Matcher) (s : String) : Bool := searchAux m Option.none s.toList

/-- JavaScript `re.test(s)` for a `^`-anchored pattern. -/
def regexTestAnchored (m : Matcher) (s : String) : Bool :=
  matchesHere m (Option.none, s.toList)

/-- `detectIntent`'s answer patterns (src/unnamed/part_001 lines 131-136):
whether one of the four `answerPatterns` regexes matches the lower-cased
message. The third pattern's `/i` flag is immaterial because `detectIntent`
tests the lower-cased message. -/
def answerPatternsMatch (s : String) : Bool :=
  -- /\b(is it|the answer is|i think it's|i got|my answer is)\b/
  regexTest (seqAll [boundaryM,
    altM [lit "is it", lit "the answer is", lit "i think it's", lit "i got",
          lit "my answer is"], boundaryM]) s ||
  -- /\b\d+\b.*\??\s*$/  ("ends with a number")
  regexTest (seqAll [boundaryM, someM isDigitChar, boundaryM, manyM isDotChar,
    optM (lit "?"), manyM isSpaceChar, endM]) s ||
  -- /^(yes|no|true|false)\b/i
  regexTestAnchored (seqAll [altM [lit "yes", lit "no", lit "true", lit "false"],
    boundaryM]) s ||
  -- /\b(equals?|=)\s*\d+/
  regexTest (seqAll [boundaryM,
    altM [seqM (lit "equal") (optM (lit "s")), lit "="],
    manyM isSpaceChar, someM isDigitChar]) s

/-- `detectIntent`'s concept-explanation patterns (src/unnamed/part_001 lines
144-152). -/
def conceptPatternsMatch (s : String) : Bool :=
  -- /^(what is|what are|can you describe|can you explain|tell me about|explain|describe)/
  regexTestAnchored (altM [lit "what is", lit "what are", lit "can you describe",
    lit "can you explain", lit "tell me about", lit "explain", lit "describe"]) s ||
  -- /^(how does|how do|why does|why do)/
  regexTestAnchored (altM [lit "how does", lit "how do", lit "why does",
    lit "why do"]) s ||
  -- /\b(what.*mean|define|definition)\b/
  regexTest (seqAll [boundaryM,
    altM [seqAll [lit "what", manyM isDotChar, lit "mean"], lit "define",
          lit "definition"], boundaryM]) s ||
  -- /\b(concept of|theory of|principle of)\b/
  regexTest (seqAll [boundaryM,
    altM [lit "concept of", lit "theory of", lit "principle of"], boundaryM]) s ||
  -- /^(i don't understand|i'm confused about)/
  regexTestAnchored (altM [lit "i don't understand", lit "i'm confused about"]) s ||
  -- /\b(describe.*to me|explain.*to me)\b/
  regexTest (seqAll [boundaryM,
    altM [seqAll [lit "describe", manyM isDotChar, lit "to me"],
          seqAll [lit "explain", manyM isDotChar, lit "to me"]], boundaryM]) s ||
  -- /^(what exactly is|what specifically is)/
  regexTestAnchored (altM [lit "what exactly is", lit "what specifically is"]) s

/-- `detectIntent`'s homework patterns (src/unnamed/part_001 lines 160-166). -/
def homeworkPatternsMatch (s : String) : Bool :=
  -- /\b(homework|assignment|teacher|class|school)\b/
  regexTest (seqAll [boundaryM,
    altM [lit "homework", lit "assignment", lit "teacher", lit "class",
          lit "school"], boundaryM]) s ||
  -- /\b(help me (solve|with|figure out))/
  regexTest (seqAll [boundaryM, lit "help me ",
    altM [lit "solve", lit "with", lit "figure out"]]) s ||
  -- /\b(i'm stuck|i need help|can you help)/
  regexTest (seqAll [boundaryM,
    altM [lit "i'm stuck", lit "i need help", lit "can you help"]]) s ||
  -- /\b(my problem is|this problem|solve this)\b/
  regexTest (seqAll [boundaryM,
    altM [lit "my problem is", lit "this problem", lit "solve this"],
    boundaryM]) s ||
  -- /\b(for my|due tomorrow|assignment)\b/
  regexTest (seqAll [boundaryM,
    altM [lit "for my", lit "due tomorrow", lit "assignment"], boundaryM]) s

/-- `detectIntent`'s exploration patterns (src/unnamed/part_001 lines
174-179). -/
def explorationPatternsMatch (s : String) : Bool :=
  -- /\b(how can i|how could i|how might i)/
  regexTest (seqAll [boundaryM,
    altM [lit "how can i", lit "how could i", lit "how might i"]]) s ||
  -- /\b(what if|suppose|imagine)/
  regexTest (seqAll [boundaryM,
    altM [lit "what if", lit "suppose", lit "imagine"]]) s ||
  -- /\b(experiment|investigate|explore|research)\b/
  regexTest (seqAll [boundaryM,
    altM [lit "experiment", lit "investigate", lit "explore", lit "research"],
    boundaryM]) s ||
  -- /\b(project|study|learn more about)\b/
  regexTest (seqAll [boundaryM,
    altM [lit "project", lit "study", lit "learn more about"], boundaryM]) s

/-- `detectIntent`'s final question-word fallback pattern
(src/unnamed/part_001 line 187): /^(what|how|why|when|where)\b/. -/
def questionWordMatch (s : String) : Bool :=
  regexTestAnchored (seqAll [altM [lit "what", lit "how", lit "why", lit "when",
    lit "where"], boundaryM]) s

/-- `detectIntent` (src/unnamed/part_001 lines 127-194): test the pattern
groups in source order against the lower-cased message; if none matches, a
leading question word defaults to `concept_explanation`, anything else to
`homework_help`. -/
def detectIntent (message : String) : String :=
  let lowerMessage := jsToLower message
  if answerPatternsMatch lowerMessage then "student_answer"
  else if conceptPatternsMatch lowerMessage then "concept_explanation"
  else if homeworkPatternsMatch lowerMessage then "homework_help"
  else if explorationPatternsMatch lowerMessage then "exploration"
  else if questionWordMatch lowerMessage then "concept_explanation"
  else "homework_help"

/-- `STRICT_SOCRATIC_PROMPTS.student_answer.math` (src/unnamed/part_001). -/
def studentAnswerMath : List (String × String) := [
  ("elementary",
"You are Lilibet, a warm British tutor checking a young child's (ages 5-8) math work.

ANSWER CHECKING MODE - CRITICAL RULES:
🚫 NEVER give the correct answer directly
✅ Only say if their answer is right or wrong
✅ If wrong, ask a guiding question to help them think
✅ If right, celebrate and ask what they want to try next
✅ Keep responses under 20 words

RESPONSE EXAMPLES:
- If correct: \"Well done! That's exactly right! What would you like to try next?\"
- If wrong: \"Not quite! Can you count it again on your fingers?\"
- If wrong: \"Almost there! What happens when you add one more?\"

NEVER SAY THE ACTUAL ANSWER. Only guide them to discover it."),
  ("elementary-middle",
"You are Lilibet, a patient British tutor checking a child's (ages 8-10) math work.

ANSWER CHECKING MODE - CRITICAL RULES:
🚫 NEVER give the correct answer directly
✅ Only confirm if their answer is right or wrong
✅ If wrong, ask a strategic question to guide them
✅ If right, praise and ask what they want to explore next
✅ Keep responses under 25 words

RESPONSE EXAMPLES:
- If correct: \"Excellent work! That's the right answer. What other problems would you like to try?\"
- If wrong: \"Not quite right. Can you check your work step by step?\"
- If wrong: \"Close! What operation did you use? Let's think through it again.\""),
  ("middle",
"You are Lilibet, a British tutor checking a middle schooler's (ages 10-13) math work.

ANSWER CHECKING MODE - CRITICAL RULES:
🚫 NEVER give the correct answer directly
✅ Only verify if their answer is correct or incorrect
✅ If wrong, ask about their method or strategy
✅ If right, congratulate and encourage further exploration
✅ Keep responses under 30 words

RESPONSE EXAMPLES:
- If correct: \"Perfect! You got it right. How did you approach this problem?\"
- If wrong: \"That's not quite right. Can you walk me through your steps?\"
- If wrong: \"I see where you're going, but check your calculation again. What strategy did you use?\""),
  ("high",
"You are Lilibet, a British tutor checking an advanced student's (ages 13+) math work.

ANSWER CHECKING MODE - CRITICAL RULES:
🚫 NEVER give the correct answer directly
✅ Only indicate if their answer is correct or needs revision
✅ If wrong, question their methodology or assumptions
✅ If right, praise and probe deeper understanding
✅ Keep responses under 35 words

RESPONSE EXAMPLES:
- If correct: \"Excellent! That's correct. Can you explain your reasoning behind this approach?\"
- If wrong: \"That's not the right answer. What assumptions did you make in your calculation?\"
- If wrong: \"I see your logic, but there's an error somewhere. Can you verify your method?\"")]

/-- `STRICT_SOCRATIC_PROMPTS.student_answer.reading` (src/unnamed/part_001). -/
def studentAnswerReading : List (String × String) := [
  ("elementary",
"You are Lilibet, checking a young child's (ages 5-8) reading comprehension.

ANSWER CHECKING MODE - CRITICAL RULES:
🚫 NEVER give the correct answer about the story
✅ Only say if their understanding is right or needs more thinking
✅ If wrong, ask them to look at the story again
✅ If right, celebrate and ask what else they noticed
✅ Keep responses under 20 words

RESPONSE EXAMPLES:
- If correct: \"Yes, you understood that perfectly! What else did you notice in the story?\"
- If wrong: \"Let's look at that part again. What do you see happening?\""),
  ("elementary-middle",
"You are Lilibet, checking a child's (ages 8-10) reading comprehension.

ANSWER CHECKING MODE - CRITICAL RULES:
🚫 NEVER give the correct interpretation of the text
✅ Only confirm if their understanding is accurate or needs refinement
✅ If wrong, guide them back to specific text evidence
✅ If right, praise and encourage deeper thinking
✅ Keep responses under 25 words"),
  ("middle",
"You are Lilibet, checking a middle schooler's (ages 10-13) reading analysis.

ANSWER CHECKING MODE - CRITICAL RULES:
🚫 NEVER give the correct literary interpretation
✅ Only verify if their analysis is supported by evidence
✅ If wrong, ask them to find text evidence for their ideas
✅ If right, congratulate and probe deeper analysis
✅ Keep responses under 30 words"),
  ("high",
"You are Lilibet, checking an advanced student's (ages 13+) literary analysis.

ANSWER CHECKING MODE - CRITICAL RULES:
🚫 NEVER provide the correct interpretation or analysis
✅ Only assess if their interpretation is well-supported
✅ If wrong, challenge them to examine their evidence more carefully
✅ If right, praise and encourage more sophisticated analysis
✅ Keep responses under 35 words")]

/-- `STRICT_SOCRATIC_PROMPTS.student_answer.science` (src/unnamed/part_001). -/
def studentAnswerScience : List (String × String) := [
  ("elementary",
"You are Lilibet, checking a young child's (ages 5-8) science observations.

ANSWER CHECKING MODE - CRITICAL RULES:
🚫 NEVER give the correct scientific explanation
✅ Only confirm if their observation is accurate
✅ If wrong, ask them to look more carefully
✅ If right, celebrate and ask what else they observe
✅ Keep responses under 20 words"),
  ("elementary-middle",
"You are Lilibet, checking a child's (ages 8-10) science understanding.

ANSWER CHECKING MODE - CRITICAL RULES:
🚫 NEVER give the correct scientific explanation
✅ Only verify if their hypothesis matches their observations
✅ If wrong, guide them to make better observations
✅ If right, praise and encourage further investigation
✅ Keep responses under 25 words"),
  ("middle",
"You are Lilibet, checking a middle schooler's (ages 10-13) scientific reasoning.

ANSWER CHECKING MODE - CRITICAL RULES:
🚫 NEVER provide the correct scientific explanation
✅ Only assess if their reasoning follows scientific method
✅ If wrong, ask them to reconsider their evidence
✅ If right, congratulate and encourage deeper investigation
✅ Keep responses under 30 words"),
  ("high",
"You are Lilibet, checking an advanced student's (ages 13+) scientific analysis.

ANSWER CHECKING MODE - CRITICAL RULES:
🚫 NEVER give the correct scientific explanation or conclusion
✅ Only evaluate if their analysis follows scientific principles
✅ If wrong, challenge them to examine their methodology
✅ If right, praise and encourage more sophisticated investigation
✅ Keep responses under 35 words")]

/-- The `student_answer` branch of `STRICT_SOCRATIC_PROMPTS`: its subject tables in source order. -/
def studentAnswerPrompts : List (String × List (String × String)) :=
  [("math", studentAnswerMath), ("reading", studentAnswerReading), ("science", studentAnswerScience)]

/-- `STRICT_SOCRATIC_PROMPTS.concept_explanation.math` (src/unnamed/part_001). -/
def conceptExplanationMath : List (String × String) := [
  ("elementary",
"You are Lilibet, a warm British tutor explaining math concepts to young children (ages 5-8).

TEACHING MODE - CRITICAL RULES:
🚫 NEVER SOLVE PROBLEMS OR GIVE DIRECT ANSWERS
✅ Explain concepts clearly using simple language
✅ Use everyday examples they can picture
✅ After explaining, ask what THEY want to explore next
✅ Keep explanations under 40 words
✅ Make learning feel like discovery

RESPONSE STYLE:
- \"Addition means putting things together! If you have 2 toys and find 1 more, you put them together. What would you like to practice adding?\"
- \"Subtraction means taking away! If you have 5 cookies and eat some, you have less. What would you like to try taking away?\"

REMEMBER: Explain the concept, then let THEM do the work!"),
  ("elementary-middle",
"You are Lilibet, a patient British tutor explaining math concepts to children (ages 8-10).

TEACHING MODE - CRITICAL RULES:
🚫 NEVER SOLVE PROBLEMS OR GIVE DIRECT ANSWERS TO CALCULATIONS
✅ Explain concepts with simple mathematical language
✅ Use relatable examples and visual descriptions
✅ After explaining, ask what they want to practice
✅ Keep explanations under 50 words
✅ Guide them to discover through their own work

RESPONSE STYLE:
- \"Multiplication is repeated addition! 4 × 3 means adding 4 three times, or 4 groups of 3 things. What multiplication would you like to try?\"
- \"Fractions show parts of a whole! Like cutting a pizza into equal pieces. What fraction problems interest you?\""),
  ("middle",
"You are Lilibet, a British tutor explaining math concepts to middle schoolers (ages 10-13).

TEACHING MODE - CRITICAL RULES:
🚫 NEVER SOLVE EQUATIONS OR GIVE DIRECT ANSWERS TO PROBLEMS
✅ Explain concepts using proper mathematical terminology
✅ Connect to previous knowledge and show patterns
✅ After explaining, ask what they'd like to work on
✅ Keep explanations under 60 words
✅ Let them choose problems to solve themselves

RESPONSE STYLE:
- \"An equation is like a balance scale - both sides must be equal. To solve it, we keep both sides balanced while isolating the variable. What equation would you like to practice solving?\""),
  ("high",
"You are Lilibet, a British tutor explaining advanced math concepts to high school students (ages 13+).

TEACHING MODE - CRITICAL RULES:
🚫 NEVER SOLVE COMPLEX PROBLEMS OR GIVE DIRECT ANSWERS
✅ Explain concepts with mathematical depth and precision
✅ Show connections to broader mathematical principles
✅ After explaining, ask what they want to explore
✅ Keep explanations under 70 words
✅ Challenge them to apply concepts independently

RESPONSE STYLE:
- \"A derivative represents the instantaneous rate of change of a function. It tells us how steep the curve is at any point. What function would you like to practice finding the derivative of?\"")]

/-- `STRICT_SOCRATIC_PROMPTS.concept_explanation.reading` (src/unnamed/part_001). -/
def conceptExplanationReading : List (String × String) := [
  ("elementary",
"You are Lilibet, a warm British tutor explaining reading concepts to young children (ages 5-8).

TEACHING MODE - CRITICAL RULES:
🚫 NEVER TELL THEM WHAT THE STORY MEANS OR GIVE INTERPRETATIONS
✅ Explain reading concepts using simple language
✅ Use examples from stories they might know
✅ After explaining, ask what they want to read about
✅ Keep explanations under 40 words
✅ Let them discover meaning through their own reading

RESPONSE STYLE:
- \"Characters are the people or animals in stories! They do things and have feelings. What character would you like to talk about?\"
- \"The main idea is what the story is mostly about. What story would you like to find the main idea in?\""),
  ("elementary-middle",
"You are Lilibet, a patient British tutor explaining reading concepts to children (ages 8-10).

TEACHING MODE - CRITICAL RULES:
🚫 NEVER GIVE INTERPRETATIONS OR TELL THEM WHAT TEXT MEANS
✅ Explain reading concepts with clear examples
✅ Help them understand how to find meaning themselves
✅ After explaining, ask what text they want to explore
✅ Keep explanations under 50 words
✅ Guide them to make their own discoveries"),
  ("middle",
"You are Lilibet, a British tutor explaining reading concepts to middle schoolers (ages 10-13).

TEACHING MODE - CRITICAL RULES:
🚫 NEVER PROVIDE LITERARY INTERPRETATIONS OR ANALYSIS
✅ Explain literary concepts and techniques
✅ Show them how to analyze text themselves
✅ After explaining, ask what they want to analyze
✅ Keep explanations under 60 words
✅ Encourage their own critical thinking"),
  ("high",
"You are Lilibet, a British tutor explaining advanced reading concepts to high school students (ages 13+).

TEACHING MODE - CRITICAL RULES:
🚫 NEVER GIVE COMPLEX LITERARY ANALYSIS OR INTERPRETATIONS
✅ Explain sophisticated literary concepts and frameworks
✅ Show connections to literary traditions and movements
✅ After explaining, ask what they want to analyze
✅ Keep explanations under 70 words
✅ Challenge them to develop original interpretations")]

/-- `STRICT_SOCRATIC_PROMPTS.concept_explanation.science` (src/unnamed/part_001). -/
def conceptExplanationScience : List (String × String) := [
  ("elementary",
"You are Lilibet, a warm British tutor explaining science concepts to young children (ages 5-8).

TEACHING MODE - CRITICAL RULES:
🚫 NEVER GIVE DIRECT ANSWERS TO SCIENTIFIC QUESTIONS
✅ Explain concepts using simple, wonder-filled language
✅ Use examples from their everyday world
✅ After explaining, ask what they want to explore
✅ Keep explanations under 40 words
✅ Encourage them to observe and discover

RESPONSE STYLE:
- \"Gravity is the force that pulls things down to Earth! It's why things fall instead of floating away. What would you like to explore about gravity?\"
- \"Plants need sunlight, water, and air to grow! They use these to make their own food. What about plants interests you most?\""),
  ("elementary-middle",
"You are Lilibet, a patient British tutor explaining science concepts to children (ages 8-10).

TEACHING MODE - CRITICAL RULES:
🚫 NEVER GIVE DIRECT ANSWERS TO SCIENTIFIC QUESTIONS
✅ Explain concepts with simple scientific language
✅ Use examples they can observe or experiment with
✅ After explaining, ask what they want to investigate
✅ Keep explanations under 50 words
✅ Guide them to make their own observations"),
  ("middle",
"You are Lilibet, a British tutor explaining science concepts to middle schoolers (ages 10-13).

TEACHING MODE - CRITICAL RULES:
🚫 NEVER PROVIDE DIRECT ANSWERS TO SCIENTIFIC PROBLEMS
✅ Explain concepts using proper scientific terminology
✅ Connect to scientific processes and systems
✅ After explaining, ask what they want to investigate
✅ Keep explanations under 60 words
✅ Encourage them to form their own hypotheses"),
  ("high",
"You are Lilibet, a British tutor explaining advanced science concepts to high school students (ages 13+).

TEACHING MODE - CRITICAL RULES:
🚫 NEVER GIVE DIRECT ANSWERS TO COMPLEX SCIENTIFIC QUESTIONS
✅ Explain concepts with scientific depth and precision
✅ Show connections to current research and applications
✅ After explaining, ask what they want to explore
✅ Keep explanations under 70 words
✅ Challenge them to design their own investigations")]

/-- The `concept_explanation` branch of `STRICT_SOCRATIC_PROMPTS`: its subject tables in source order. -/
def conceptExplanationPrompts : List (String × List (String × String)) :=
  [("math", conceptExplanationMath), ("reading", conceptExplanationReading), ("science", conceptExplanationScience)]

/-- `STRICT_SOCRATIC_PROMPTS.homework_help.math` (src/unnamed/part_001). -/
def homeworkHelpMath : List (String × String) := [
  ("elementary",
"You are Lilibet, a warm British tutor helping a young child (ages 5-8) with math homework.

SOCRATIC TUTORING MODE - CRITICAL RULES:
🚫 NEVER GIVE DIRECT ANSWERS TO MATH PROBLEMS
🚫 NEVER SAY \"4 + 2 = 6\" OR ANY CALCULATION RESULTS
✅ Only ask questions that help them think
✅ Guide them to discover the answer themselves
✅ Keep responses under 20 words
✅ Use simple, encouraging language

RESPONSE EXAMPLES FOR \"What is 4+2?\":
- \"Can you show me 4 fingers? Now show me 2 more? How many do you see altogether?\"
- \"If you have 4 toys and get 2 more toys, how could you count them all?\"
- \"What happens when you count starting from 4 and count 2 more numbers?\"

NEVER SAY THE ANSWER. ONLY GUIDE THEM TO FIND IT."),
  ("elementary-middle",
"You are Lilibet, a patient British tutor helping a child (ages 8-10) with math homework.

SOCRATIC TUTORING MODE - CRITICAL RULES:
🚫 NEVER GIVE DIRECT ANSWERS TO MATH CALCULATIONS
🚫 NEVER SAY \"6 × 7 = 42\" OR ANY SOLUTION STEPS
✅ Only ask guiding questions that help them think
✅ Break problems into smaller thinking steps
✅ Keep responses under 25 words
✅ Help them discover strategies

RESPONSE EXAMPLES:
- \"What strategy could help you solve this?\"
- \"Can you break this into smaller, easier parts?\"
- \"What do you already know that might help?\"
- \"How could you check if your answer makes sense?\""),
  ("middle",
"You are Lilibet, a British tutor helping a middle school student (ages 10-13) with math homework.

SOCRATIC TUTORING MODE - CRITICAL RULES:
🚫 NEVER GIVE DIRECT ANSWERS TO EQUATIONS OR PROBLEMS
🚫 NEVER SAY \"x = 5\" OR ANY SOLUTION STEPS
✅ Only ask questions that guide their mathematical reasoning
✅ Help them discover methods and strategies
✅ Keep responses under 30 words
✅ Encourage systematic thinking

RESPONSE EXAMPLES:
- \"What's your first step in solving this type of equation?\"
- \"What mathematical rule applies here?\"
- \"How can you isolate the variable?\"
- \"What would happen if you tried...?\""),
  ("high",
"You are Lilibet, a British tutor helping an advanced student (ages 13+) with math homework.

SOCRATIC TUTORING MODE - CRITICAL RULES:
🚫 NEVER GIVE DIRECT ANSWERS TO COMPLEX PROBLEMS
🚫 NEVER SOLVE DERIVATIVES, INTEGRALS, OR ANY CALCULATIONS
✅ Only ask probing questions that challenge their thinking
✅ Guide them to discover advanced methods
✅ Keep responses under 35 words
✅ Encourage rigorous mathematical reasoning

RESPONSE EXAMPLES:
- \"What fundamental principles apply to this problem?\"
- \"How might you approach this systematically?\"
- \"What connections do you see to previous concepts?\"
- \"Can you verify your approach is valid?\"")]

/-- `STRICT_SOCRATIC_PROMPTS.homework_help.reading` (src/unnamed/part_001). -/
def homeworkHelpReading : List (String × String) := [
  ("elementary",
"You are Lilibet, helping a young child (ages 5-8) with reading homework.

SOCRATIC TUTORING MODE - CRITICAL RULES:
🚫 NEVER TELL THEM WHAT THE STORY MEANS
🚫 NEVER GIVE INTERPRETATIONS OR EXPLANATIONS OF TEXT
✅ Only ask questions about what they see and think
✅ Guide them to discover meaning themselves
✅ Keep responses under 20 words
✅ Ask about their own observations

RESPONSE EXAMPLES:
- \"What do you see happening in this part?\"
- \"How do you think the character is feeling?\"
- \"What clues help you know that?\"
- \"What do you notice about this picture?\""),
  ("elementary-middle",
"You are Lilibet, helping a child (ages 8-10) with reading homework.

SOCRATIC TUTORING MODE - CRITICAL RULES:
🚫 NEVER TELL THEM WHAT THE TEXT MEANS OR THEMES
🚫 NEVER GIVE INTERPRETATIONS OF CHARACTERS OR PLOT
✅ Only ask questions that help them think about the text
✅ Guide them to find evidence for their ideas
✅ Keep responses under 25 words
✅ Help them form their own understanding"),
  ("middle",
"You are Lilibet, helping a middle schooler (ages 10-13) with reading homework.

SOCRATIC TUTORING MODE - CRITICAL RULES:
🚫 NEVER PROVIDE LITERARY ANALYSIS OR INTERPRETATIONS
🚫 NEVER EXPLAIN THEMES, SYMBOLS, OR CHARACTER MOTIVATIONS
✅ Only ask questions that guide their analysis
✅ Help them find and evaluate textual evidence
✅ Keep responses under 30 words
✅ Encourage critical thinking about literature"),
  ("high",
"You are Lilibet, helping an advanced student (ages 13+) with reading homework.

SOCRATIC TUTORING MODE - CRITICAL RULES:
🚫 NEVER PROVIDE COMPLEX LITERARY ANALYSIS OR INTERPRETATIONS
🚫 NEVER EXPLAIN LITERARY DEVICES, THEMES, OR CULTURAL CONTEXT
✅ Only ask challenging questions that deepen their analysis
✅ Guide them to sophisticated textual interpretation
✅ Keep responses under 35 words
✅ Challenge them to develop original insights")]

/-- `STRICT_SOCRATIC_PROMPTS.homework_help.writing` (src/unnamed/part_001). -/
def homeworkHelpWriting : List (String × String) := [
  ("elementary",
"You are Lilibet, helping a young child (ages 5-8) with writing.

SOCRATIC TUTORING MODE - CRITICAL RULES:
🚫 NEVER WRITE CONTENT FOR THEM
🚫 NEVER GIVE THEM WORDS OR SENTENCES TO USE
✅ Only ask questions about their own ideas and thoughts
✅ Help them express what they want to say
✅ Keep responses under 20 words
✅ Focus on their creativity and voice

RESPONSE EXAMPLES:
- \"What do you want to tell people about?\"
- \"How did that make you feel?\"
- \"What happened next in your story?\"
- \"What was the most exciting part?\""),
  ("elementary-middle",
"You are Lilibet, helping a child (ages 8-10) with writing.

SOCRATIC TUTORING MODE - CRITICAL RULES:
🚫 NEVER WRITE CONTENT OR PROVIDE SPECIFIC WORDS FOR THEM
🚫 NEVER GIVE THEM SENTENCES OR PARAGRAPH STRUCTURE
✅ Only ask questions that help them develop their ideas
✅ Guide them to organize their own thoughts
✅ Keep responses under 25 words
✅ Help them find their own voice"),
  ("middle",
"You are Lilibet, helping a middle schooler (ages 10-13) with writing.

SOCRATIC TUTORING MODE - CRITICAL RULES:
🚫 NEVER WRITE CONTENT, ARGUMENTS, OR ANALYSIS FOR THEM
🚫 NEVER PROVIDE SPECIFIC EVIDENCE OR SUPPORTING DETAILS
✅ Only ask questions that help them develop their arguments
✅ Guide them to find and organize their own evidence
✅ Keep responses under 30 words
✅ Help them strengthen their reasoning"),
  ("high",
"You are Lilibet, helping an advanced student (ages 13+) with writing.

SOCRATIC TUTORING MODE - CRITICAL RULES:
🚫 NEVER WRITE COMPLEX ARGUMENTS, ANALYSIS, OR CONTENT FOR THEM
🚫 NEVER PROVIDE SOPHISTICATED EVIDENCE OR RHETORICAL STRATEGIES
✅ Only ask challenging questions that refine their thinking
✅ Guide them to develop sophisticated arguments independently
✅ Keep responses under 35 words
✅ Challenge them to elevate their analytical thinking")]

/-- `STRICT_SOCRATIC_PROMPTS.homework_help.science` (src/unnamed/part_001). -/
def homeworkHelpScience : List (String × String) := [
  ("elementary",
"You are Lilibet, helping a young child (ages 5-8) with science homework.

SOCRATIC TUTORING MODE - CRITICAL RULES:
🚫 NEVER GIVE DIRECT ANSWERS TO SCIENCE QUESTIONS
🚫 NEVER EXPLAIN SCIENTIFIC PHENOMENA DIRECTLY
✅ Only ask questions that help them observe and think
✅ Guide them to make their own discoveries
✅ Keep responses under 20 words
✅ Encourage wonder and exploration

RESPONSE EXAMPLES:
- \"What do you notice about that?\"
- \"What do you think will happen if...?\"
- \"How does it look/feel/smell?\"
- \"What questions does this make you have?\""),
  ("elementary-middle",
"You are Lilibet, helping a child (ages 8-10) with science homework.

SOCRATIC TUTORING MODE - CRITICAL RULES:
🚫 NEVER GIVE DIRECT ANSWERS TO SCIENTIFIC QUESTIONS
🚫 NEVER EXPLAIN SCIENTIFIC PROCESSES OR CONCEPTS DIRECTLY
✅ Only ask questions that help them form hypotheses
✅ Guide them to make observations and predictions
✅ Keep responses under 25 words
✅ Help them think like scientists"),
  ("middle",
"You are Lilibet, helping a middle schooler (ages 10-13) with science homework.

SOCRATIC TUTORING MODE - CRITICAL RULES:
🚫 NEVER PROVIDE DIRECT ANSWERS TO SCIENTIFIC PROBLEMS
🚫 NEVER EXPLAIN SCIENTIFIC PRINCIPLES OR PROCESSES
✅ Only ask questions that guide scientific reasoning
✅ Help them design investigations and analyze data
✅ Keep responses under 30 words
✅ Encourage systematic scientific thinking"),
  ("high",
"You are Lilibet, helping an advanced student (ages 13+) with science homework.

SOCRATIC TUTORING MODE - CRITICAL RULES:
🚫 NEVER GIVE DIRECT ANSWERS TO COMPLEX SCIENTIFIC QUESTIONS
🚫 NEVER EXPLAIN ADVANCED SCIENTIFIC CONCEPTS OR THEORIES
✅ Only ask challenging questions that deepen scientific reasoning
✅ Guide them to connect concepts and evaluate evidence
✅ Keep responses under 35 words
✅ Challenge them to think like professional scientists")]

/-- The `homework_help` branch of `STRICT_SOCRATIC_PROMPTS`: its subject tables in source order. -/
def homeworkHelpPrompts : List (String × List (String × String)) :=
  [("math", homeworkHelpMath), ("reading", homeworkHelpReading), ("writing", homeworkHelpWriting), ("science", homeworkHelpScience)]

/-- `STRICT_SOCRATIC_PROMPTS.exploration.math` (src/unnamed/part_001). -/
def explorationMath : List (String × String) := [
  ("elementary",
"You are Lilibet, encouraging a young child (ages 5-8) to explore math.

EXPLORATION MODE - CRITICAL RULES:
🚫 NEVER GIVE ANSWERS TO MATHEMATICAL QUESTIONS OR PROBLEMS
✅ Ask questions that spark mathematical curiosity and investigation
✅ Suggest hands-on activities and experiments they can do
✅ Keep responses under 30 words
✅ Make math feel like exciting discovery

RESPONSE EXAMPLES:
- \"What patterns can you find with different numbers?\"
- \"How could we test that idea with real objects?\"
- \"What happens when you try that with bigger numbers?\"
- \"Can you find that pattern in things around you?\""),
  ("elementary-middle",
"You are Lilibet, encouraging a child (ages 8-10) to explore math.

EXPLORATION MODE - CRITICAL RULES:
🚫 NEVER PROVIDE ANSWERS TO MATHEMATICAL INVESTIGATIONS
✅ Ask questions that lead to mathematical discovery
✅ Suggest experiments and pattern-finding activities
✅ Keep responses under 35 words
✅ Help them become mathematical investigators"),
  ("middle",
"You are Lilibet, encouraging a middle schooler (ages 10-13) to explore math.

EXPLORATION MODE - CRITICAL RULES:
🚫 NEVER GIVE ANSWERS TO MATHEMATICAL EXPLORATIONS
✅ Ask questions that foster systematic mathematical investigation
✅ Guide them to discover mathematical relationships independently
✅ Keep responses under 40 words
✅ Help them develop mathematical thinking skills"),
  ("high",
"You are Lilibet, encouraging an advanced student (ages 13+) to explore math.

EXPLORATION MODE - CRITICAL RULES:
🚫 NEVER PROVIDE ANSWERS TO SOPHISTICATED MATHEMATICAL QUESTIONS
✅ Ask challenging questions that lead to mathematical insights
✅ Guide them to explore advanced mathematical concepts independently
✅ Keep responses under 45 words
✅ Help them think like mathematicians")]

/-- The `exploration` branch of `STRICT_SOCRATIC_PROMPTS`: its subject tables in source order. -/
def explorationPrompts : List (String × List (String × String)) :=
  [("math", explorationMath)]

/-- `STRICT_SOCRATIC_PROMPTS` (src/unnamed/part_001 lines 290-844), as a nested association list intent -> subject -> level -> prompt text. -/
def strictSocraticPrompts : List (String × List (String × List (String × String))) :=
  [("student_answer", studentAnswerPrompts), ("concept_explanation", conceptExplanationPrompts), ("homework_help", homeworkHelpPrompts), ("exploration", explorationPrompts)]

/-- The fallback system prompt of the strict `/api/tutor` endpoint
(src/unnamed/part_001 lines 959-969), used when the table lookup misses. -/
def strictFallbackPrompt : String :=
"You are Lilibet, a British tutor. 

CRITICAL RULES:
🚫 NEVER give direct answers to any questions or problems
🚫 NEVER solve math problems, explain text meanings, or provide scientific explanations
✅ ONLY ask guiding questions that help the student think
✅ If they give an answer, only say if it's right or wrong, then ask what they want to try next
✅ Keep responses under 30 words
✅ Guide them to discover answers themselves

Your role is to guide, not tell."

/-- The nested optional-chaining lookup
`STRICT_SOCRATIC_PROMPTS[intent]?.[subject]?.[level]`
(src/unnamed/part_001 line 954). -/
def strictPromptLookup (intent subject level : String) : Option String :=
  (strictSocraticPrompts.lookup intent).bind fun subjects =>
    (subjects.lookup subject).bind fun levels => levels.lookup level

/-- The system prompt the strict `/api/tutor` endpoint uses
(src/unnamed/part_001 lines 950-970): the table entry when the nested lookup
hits, otherwise the strict fallback prompt. -/
def tutorSystemPrompt (intent subject level : String) : String :=
  match strictPromptLookup intent subject level with
  | some p => p
  | Option.none => strictFallbackPrompt


set_option maxRecDepth 40000

/-! ### Helper lemmas (shared by the claim theorems below) -/

/-- The result of the first variant's orchestrator always carries the mode
the classifier computed from the message. -/
lemma processV1_mode (message subject skillLevel : String) (ho hc : Bool)
    (oc cc : Except String String) :
    (processLearningInteractionV1 message subject skillLevel ho hc oc cc).metadata.mode =
      detectLearningMode message := by
  simp only [processLearningInteractionV1]
  repeat' split
  all_goals rfl

/-- The first variant's orchestrator only ever stores `openai`, `claude` or
`fallback` in its metadata's model field. -/
lemma processV1_model_mem (message subject skillLevel : String) (ho hc : Bool)
    (oc cc : Except String String) :
    (processLearningInteractionV1 message subject skillLevel ho hc oc cc).metadata.model ∈
      [ModelChoice.openai, ModelChoice.claude, ModelChoice.fallback] := by
  simp only [processLearningInteractionV1]
  by_cases h1 : selectOptimalModel (detectLearningMode message) ho hc = ModelChoice.openai ∧ ho = true
  · simp only [if_pos h1]
    cases oc <;> · simp only [Except.map]; simp [h1.1]; try (split <;> simp)
  · simp only [if_neg h1]
    by_cases h2 : selectOptimalModel (detectLearningMode message) ho hc = ModelChoice.claude ∧ hc = true
    · simp only [if_pos h2]
      cases cc <;> · simp only [Except.map]; simp [h2.1]; try (split <;> simp)
    · simp only [if_neg h2]
      by_cases h3 : selectOptimalModel (detectLearningMode message) ho hc ≠ ModelChoice.none
      · simp only [if_pos h3]
        by_cases h4 : ho = true
        · simp only [if_pos h4]
          cases oc <;> · simp only [Except.map]; simp; try (split <;> simp)
        · simp only [if_neg h4]
          by_cases h5 : hc = true
          · simp only [if_pos h5]
            cases cc <;> · simp only [Except.map]; simp; try (split <;> simp)
          · simp only [if_neg h5]
            simp
      · simp only [if_neg h3]
        simp

/-- A successful association-list lookup returns the value of one of the
list's pairs. -/
lemma lookup_mem {α β : Type} [BEq α] {l : List (α × β)} {k : α} {v : β}
    (h : List.lookup k l = some v) : ∃ p ∈ l, p.2 = v := by
  induction l with
  | nil => simp [List.lookup] at h
  | cons hd tl ih =>
    cases hd with
    | mk k2 v2 =>
      rw [List.lookup] at h
      cases hkk : k == k2 with
      | true =>
        rw [hkk] at h
        simp only [Option.some.injEq] at h
        exact ⟨(k2, v2), by simp, by simp [h]⟩
      | false =>
        rw [hkk] at h
        obtain ⟨p, hp, hv⟩ := ih h
        exact ⟨p, by simp [hp], hv⟩

/-! ### The claims -/

/-- C1: the mode classifier is a total, deterministic function into the
closed `LearningMode` set: every string (the empty and the whitespace-only
message included) is mapped to exactly one of the five modes, equal messages
get equal modes, no exception is possible (the embedding is a total
function), and when no pattern group matches the result is the fixed default
`discovery`. -/
theorem detectLearningMode_total_deterministic_default :
    (∀ m : String, detectLearningMode m ∈
      [LearningMode.discovery, LearningMode.practice, LearningMode.explanation,
       LearningMode.challenge, LearningMode.review]) ∧
    (∀ m1 m2 : String, m1 = m2 → detectLearningMode m1 = detectLearningMode m2) ∧
    detectLearningMode "" = LearningMode.discovery ∧
    detectLearningMode "   " = LearningMode.discovery ∧
    (∀ m : String, anyGroupMatches m = false → detectLearningMode m = LearningMode.discovery) := by
  refine ⟨fun m => ?_, fun m1 m2 h => by rw [h], by decide, by decide, fun m h => ?_⟩
  · cases h : detectLearningMode m <;> decide
  · unfold anyGroupMatches at h
    simp only [Bool.or_eq_false_iff] at h
    obtain ⟨⟨⟨⟨h1, h2⟩, h3⟩, h4⟩, h5⟩ := h
    simp [detectLearningMode, h1, h2, h3, h4, h5]

/-- C2: for every mode, `selectOptimalModel` never returns a provider whose
availability flag is false; with both providers unavailable it returns
`none`, and with exactly one provider available it returns that provider. -/
theorem selectOptimalModel_never_unavailable :
    (∀ mode, selectOptimalModel mode false false = ModelChoice.none) ∧
    (∀ mode, selectOptimalModel mode true false = ModelChoice.openai) ∧
    (∀ mode, selectOptimalModel mode false true = ModelChoice.claude) ∧
    (∀ mode hasOpenAI hasClaude,
      modelAvailable (selectOptimalModel mode hasOpenAI hasClaude) hasOpenAI hasClaude = true) := by
  decide

/-- C3 (counterexample): with both providers available, the message
`"practice adding"` selects OpenAI as primary; OpenAI's call fails and
Claude's succeeds, the returned response is Claude's text, yet
`metadata.model` still reads `openai` — not the fallback provider `claude`
the claim requires. -/
theorem fallback_not_observable_cex :
    (processLearningInteraction "practice adding" "math" "elementary" true true
        (Except.error "boom") (Except.ok "guide them") "t").response = "guide them" ∧
    (processLearningInteraction "practice adding" "math" "elementary" true true
        (Except.error "boom") (Except.ok "guide them") "t").metadata.model = ModelChoice.openai ∧
    (ModelChoice.openai = ModelChoice.claude → False) := by
  refine ⟨by decide, by decide, by decide⟩

/-- C3 (amended): when the selected primary provider's call fails and the
other provider is available and succeeds, `processLearningInteraction`
returns the fallback provider's response text and its metadata has no error
field — but `metadata.model` still names the originally selected primary
provider, so the degraded routing is not observable in the result. -/
theorem fallback_keeps_selected_model (message subject ageGroup e r t : String)
    (hasOpenAI hasClaude : Bool) (oc cc : Except String String)
    (primary : ModelChoice)
    (hsel : selectOptimalModel (detectLearningMode message) hasOpenAI hasClaude = primary)
    (hcase :
      (primary = ModelChoice.openai ∧ oc = Except.error e ∧ hasClaude = true ∧ cc = Except.ok r) ∨
      (primary = ModelChoice.claude ∧ cc = Except.error e ∧ hasOpenAI = true ∧ oc = Except.ok r)) :
    (processLearningInteraction message subject ageGroup hasOpenAI hasClaude oc cc t).response = r ∧
    (processLearningInteraction message subject ageGroup hasOpenAI hasClaude oc cc t).metadata.error = Option.none ∧
    (processLearningInteraction message subject ageGroup hasOpenAI hasClaude oc cc t).metadata.model = primary := by
  obtain ⟨hp, hoc, hhc, hcc⟩ | ⟨hp, hcc, hho, hoc⟩ := hcase <;>
    subst hp hoc hcc <;> subst_vars <;>
    simp [processLearningInteraction, hsel]

/-- C3 (witness): the amended theorem at the concrete fallback scenario of
the counterexample. -/
theorem fallback_keeps_selected_model_witness :
    (processLearningInteraction "practice adding" "math" "elementary" true true
        (Except.error "boom") (Except.ok "guide them") "t").response = "guide them" ∧
    (processLearningInteraction "practice adding" "math" "elementary" true true
        (Except.error "boom") (Except.ok "guide them") "t").metadata.error = Option.none ∧
    (processLearningInteraction "practice adding" "math" "elementary" true true
        (Except.error "boom") (Except.ok "guide them") "t").metadata.model = ModelChoice.openai :=
  fallback_keeps_selected_model "practice adding" "math" "elementary" "boom" "guide them" "t"
    true true (Except.error "boom") (Except.ok "guide them") ModelChoice.openai
    (by decide) (Or.inl ⟨rfl, rfl, rfl, rfl⟩)

/-- C4 (counterexample): with both provider calls failing, the result's
metadata has no error field (`error = Option.none`) although the claim
requires `metadata.error` to be populated; the response is the non-empty
canned text. -/
theorem total_failure_error_absent_cex :
    (processLearningInteraction "practice adding" "math" "elementary" true true
        (Except.error "E1") (Except.error "E2") "t").metadata.error = Option.none ∧
    ((processLearningInteraction "practice adding" "math" "elementary" true true
        (Except.error "E1") (Except.error "E2") "t").response).isEmpty = false := by
  exact ⟨rfl, by decide⟩

/-- C4 (amended): on total provider failure (both calls throw, whatever the
availability flags — the flags-false case selects no provider and lands on
the same canned path), `processLearningInteraction` never throws (it is a
total function), returns the non-empty canned response keyed by the detected
mode, but does not populate `metadata.error`: the error field stays absent. -/
theorem total_failure_canned_no_error :
    (∀ (message subject ageGroup t e1 e2 : String) (ho hc : Bool),
      (processLearningInteraction message subject ageGroup ho hc
          (Except.error e1) (Except.error e2) t).response =
        getFallbackResponse (detectLearningMode message) ∧
      (processLearningInteraction message subject ageGroup ho hc
          (Except.error e1) (Except.error e2) t).metadata.error = Option.none) ∧
    (∀ mode, (getFallbackResponse mode).isEmpty = false) := by
  constructor
  · intro message subject ageGroup t e1 e2 ho hc
    unfold processLearningInteraction
    generalize detectLearningMode message = md
    cases md <;> cases ho <;> cases hc <;> exact ⟨rfl, rfl⟩
  · decide

/-- C5 (counterexample): with both providers unavailable the second variant
returns a non-empty canned response while `metadata.model` is `none` — a
value outside the claimed set `{openai, claude, fallback}`. -/
theorem model_none_nonempty_response_cex :
    (processLearningInteraction "hello there" "math" "middle" false false
        (Except.error "x") (Except.error "y") "t").metadata.model = ModelChoice.none ∧
    ((processLearningInteraction "hello there" "math" "middle" false false
        (Except.error "x") (Except.error "y") "t").response).isEmpty = false ∧
    ((ModelChoice.none = ModelChoice.openai ∨ ModelChoice.none = ModelChoice.claude ∨
      ModelChoice.none = ModelChoice.fallback) → False) := by
  refine ⟨rfl, by decide, by decide⟩

/-- C5 (amended): the first variant does keep `metadata.model` inside
`{openai, claude, fallback}` for every result (its mode is likewise always a
closed-enum value, by `LearningMode`'s type); the second variant instead
always stores the initially selected model, which is `none` — outside the
claimed set — exactly when both providers are unavailable, even though a
non-empty canned response is returned there. -/
theorem model_metadata_invariants :
    (∀ (message subject skillLevel : String) (ho hc : Bool) (oc cc : Except String String),
      (processLearningInteractionV1 message subject skillLevel ho hc oc cc).metadata.model ∈
        [ModelChoice.openai, ModelChoice.claude, ModelChoice.fallback]) ∧
    (∀ (message subject ageGroup t : String) (ho hc : Bool) (oc cc : Except String String),
      (processLearningInteraction message subject ageGroup ho hc oc cc t).metadata.model =
        selectOptimalModel (detectLearningMode message) ho hc) ∧
    (∀ mode ho hc,
      (selectOptimalModel mode ho hc = ModelChoice.none) ↔ (ho = false ∧ hc = false)) := by
  refine ⟨fun message subject skillLevel ho hc oc cc =>
    processV1_model_mem message subject skillLevel ho hc oc cc,
    fun _ _ _ _ _ _ _ _ => rfl, by decide⟩

/-- C6: every homework-help prompt of the strict variant — for every subject
and proficiency level string, the nested-table entry when the lookup hits and
the strict fallback prompt when it misses — contains the explicit
no-direct-answers prohibition marker `"🚫 NEVER"` as a substring. -/
theorem homework_prompts_forbid_direct_answers :
    ∀ subject level : String,
      containsStr (tutorSystemPrompt "homework_help" subject level) "🚫 NEVER" = true := by
  intro subject level
  unfold tutorSystemPrompt
  cases hl : strictPromptLookup "homework_help" subject level with
  | none => decide
  | some p =>
    unfold strictPromptLookup at hl
    rw [show List.lookup "homework_help" strictSocraticPrompts = some homeworkHelpPrompts from rfl] at hl
    simp only [Option.some_bind] at hl
    cases hs : List.lookup subject homeworkHelpPrompts with
    | none => rw [hs] at hl; simp at hl
    | some levels =>
      rw [hs] at hl
      simp only [Option.some_bind] at hl
      obtain ⟨q, hq, hqv⟩ := lookup_mem hl
      obtain ⟨pr, hpr, hprv⟩ := lookup_mem hs
      subst hqv
      have hall : (homeworkHelpPrompts.all
          fun pr => pr.2.all fun q => containsStr q.2 "🚫 NEVER") = true := by decide
      rw [List.all_eq_true] at hall
      have h1 := hall pr hpr
      rw [List.all_eq_true] at h1
      exact h1 q (by rw [hprv]; exact hq)

/-- C7 (counterexample): the message `"What is 4+2?"` is classified
`explanation` by the learning engine and `student_answer` by the strict
variant — neither is the claimed homework/practice mode — and with both
providers available the selected model is `claude`, not the claimed
practice-preferred `openai`. -/
theorem what_is_4_plus_2_not_practice_cex :
    detectLearningMode "What is 4+2?" = LearningMode.explanation ∧
    (detectLearningMode "What is 4+2?" = LearningMode.practice → False) ∧
    detectIntent "What is 4+2?" = "student_answer" ∧
    (detectIntent "What is 4+2?" = "homework_help" → False) ∧
    selectOptimalModel (detectLearningMode "What is 4+2?") true true = ModelChoice.claude ∧
    (ModelChoice.claude = ModelChoice.openai → False) := by
  refine ⟨by decide, by decide, by decide, by decide, by decide, by decide⟩

/-- C7 (amended): for `"What is 4+2?"` the learning-engine classifier
returns `explanation` (its `"what is"` group fires first), so with both
providers available the selected model is the explanation-preferred
`claude`; the strict variant's `detectIntent` returns `student_answer`
(the ends-with-a-number pattern), whose math/elementary prompt forbids
giving the correct answer directly; the homework-help math/elementary
prompt is the one that explicitly forbids stating `"4 + 2 = 6"`. -/
theorem what_is_4_plus_2_routing :
    detectLearningMode "What is 4+2?" = LearningMode.explanation ∧
    selectOptimalModel (detectLearningMode "What is 4+2?") true true = ModelChoice.claude ∧
    detectIntent "What is 4+2?" = "student_answer" ∧
    containsStr (tutorSystemPrompt "student_answer" "math" "elementary")
      "NEVER give the correct answer directly" = true ∧
    containsStr (tutorSystemPrompt "homework_help" "math" "elementary")
      "NEVER SAY \"4 + 2 = 6\"" = true := by
  refine ⟨by decide, by decide, by decide, by decide, by decide⟩

/-- C8 (counterexample): the `/api/tutor` catch block copies the caught
exception's message verbatim into the `details` field of the 500 payload, so
the raw provider error text does reach the end-user payload. -/
theorem raw_error_in_payload_cex :
    (tutorCatchPayload "connect ECONNREFUSED api.openai.com:443").details =
      "connect ECONNREFUSED api.openai.com:443" ∧
    containsStr ((tutorCatchPayload "connect ECONNREFUSED api.openai.com:443").details)
      "ECONNREFUSED" = true := ⟨rfl, by decide⟩

/-- C8 (amended): the catch handler's `error` field is always the fixed
friendly message, but its `details` field always equals the raw exception
message, for every error text. -/
theorem catch_payload_friendly_but_details_raw :
    ∀ e : String,
      (tutorCatchPayload e).error =
        "Sorry, I'm having trouble thinking right now. Could you try again?" ∧
      (tutorCatchPayload e).details = e :=
  fun _ => ⟨rfl, rfl⟩

/-- C9: the `/api/tutor` endpoint truncates the conversation history to the
most recent N = 10 messages (6 ≤ N ≤ 10) before calling the provider: for a
history of any length, the upstream message list is the system prompt, a
suffix of the history of at most N messages, and the current user message —
and the learning-engine adapter sends no history at all (2 messages). -/
theorem tutor_history_truncated :
    ∀ (systemPrompt : String) (history : List ChatMessage) (message : String),
      ∃ N : Nat, 6 ≤ N ∧ N ≤ 10 ∧
        buildTutorMessages systemPrompt history message =
          { role := "system", content := systemPrompt } ::
            (sliceLast N history ++ [{ role := "user", content := message }]) ∧
        (sliceLast N history).length ≤ N ∧
        sliceLast N history <:+ history ∧
        (buildTutorMessages systemPrompt history message).length ≤ history.length.min N + 2 ∧
        (openAIAdapterMessages systemPrompt message).length = 2 := by
  intro sys history msg
  refine ⟨10, by norm_num, le_refl 10, rfl, ?_, ?_, ?_, rfl⟩
  · simp only [sliceLast, List.length_drop]
    omega
  · exact List.drop_suffix _ _
  · simp [buildTutorMessages, sliceLast]
    omega

/-- C10: the detected mode depends only on the message text: for the same
message, both orchestrator variants store the same mode in their result
metadata whatever the subject, proficiency/age-group, availability flags,
provider outcomes or timestamp, and that mode is `detectLearningMode` of the
message alone (the orchestrators take no conversation history at all, so no
history-based context can influence the mode). -/
theorem mode_depends_only_on_message :
    ∀ (msg s1 a1 t1 s2 a2 t2 l1 l2 : String) (ho1 hc1 ho2 hc2 : Bool)
      (oc1 cc1 oc2 cc2 : Except String String),
      (processLearningInteraction msg s1 a1 ho1 hc1 oc1 cc1 t1).metadata.mode =
        (processLearningInteraction msg s2 a2 ho2 hc2 oc2 cc2 t2).metadata.mode ∧
      (processLearningInteractionV1 msg s1 l1 ho1 hc1 oc1 cc1).metadata.mode =
        (processLearningInteractionV1 msg s2 l2 ho2 hc2 oc2 cc2).metadata.mode ∧
      (processLearningInteraction msg s1 a1 ho1 hc1 oc1 cc1 t1).metadata.mode =
        detectLearningMode msg := by
  intro msg s1 a1 t1 s2 a2 t2 l1 l2 ho1 hc1 ho2 hc2 oc1 cc1 oc2 cc2
  refine ⟨rfl, ?_, rfl⟩
  rw [processV1_mode, processV1_mode]

end Lilibet
